import Mathlib

/-!
Shallow embedding of libvcmmd (src/vcmmd.c, include/vcmmd.h): the VE config
container, the wire codec used by GetVEConfig, and the reply-interpretation
logic of vcmmd_get_ve_state, vcmmd_get_current_policy,
vcmmd_get_policy_from_file and vcmmd_strerror.

Modelling conventions:
* C enum `vcmmd_ve_config_key_t` values and wire tags are `Nat` (the decode
  path casts an arbitrary `uint16` tag into the key type, so keys are not
  restricted to the seven enumerators).
* `uint64_t` values are `Nat` (the library never computes on them, it only
  stores and forwards, so no overflow arises).
* `char *str` fields are `Option String`: `none` models a NULL pointer,
  `some s` a heap string owned by the config.  `strdup` failure (OOM) is not
  modelled: `strdup` is assumed to succeed.
* Functions that in C write through out-pointers and return a status are
  modelled as returning the pair (status, written value).
* The DBus transport is out of scope; reply-decoding functions take the
  already-parsed payload of a well-shaped reply (the leading int32 status and,
  for GetVEConfig, the array of (uint16, uint64, string) structs).
-/

/-- `__NR_VCMMD_VE_CONFIG_KEYS` from include/vcmmd.h: seven keys precede it in
the enum, so its value is 7. -/
def __NR_VCMMD_VE_CONFIG_KEYS : Nat := 7

/-- Enumerator values of `vcmmd_ve_config_key_t` (include/vcmmd.h). -/
def VCMMD_VE_CONFIG_GUARANTEE : Nat := 0

def VCMMD_VE_CONFIG_LIMIT : Nat := 1

def VCMMD_VE_CONFIG_SWAP : Nat := 2

def VCMMD_VE_CONFIG_VRAM : Nat := 3

def VCMMD_VE_CONFIG_NODE_LIST : Nat := 4

def VCMMD_VE_CONFIG_CPU_LIST : Nat := 5

def VCMMD_VE_CONFIG_GUARANTEE_TYPE : Nat := 6

/-- Error-code enum of include/vcmmd.h. -/
def __VCMMD_SERVICE_ERROR_START : Int := 1

def VCMMD_ERROR_VE_NOT_REGISTERED : Int := 5

def __VCMMD_SERVICE_ERROR_END : Int := 11

def __VCMMD_LIB_ERROR_START : Int := 1000

def VCMMD_ERROR_NO_MEMORY : Int := 1000

def VCMMD_ERROR_CONNECTION_FAILED : Int := 1001

def __VCMMD_LIB_ERROR_END : Int := 1002

/-- `vcmmd_ve_state_t` enumerators. -/
def VCMMD_VE_UNREGISTERED : Nat := 0

def VCMMD_VE_REGISTERED : Nat := 1

def VCMMD_VE_ACTIVE : Nat := 2

/-- `struct vcmmd_ve_config_entry`: key, numeric value, owned string
(`none` = NULL pointer). -/
structure vcmmd_ve_config_entry where
  key : Nat
  value : Nat
  str : Option String
deriving DecidableEq, Repr

/-- `struct vcmmd_ve_config`: `nr_entries` plus the first `nr_entries` slots of
the fixed `entries` array, modelled as a list (slots past `nr_entries` are
never read by the library). -/
structure vcmmd_ve_config where
  entries : List vcmmd_ve_config_entry
deriving DecidableEq, Repr

/-- `nr_entries` of the C struct. -/
def vcmmd_ve_config.nr_entries (c : vcmmd_ve_config) : Nat :=
  c.entries.length

/-- `vcmmd_ve_config_init` (include/vcmmd.h): memset to zero, i.e. the empty
config. -/
def vcmmd_ve_config_init : vcmmd_ve_config := ⟨[]⟩

/-- `vcmmd_ve_config_deinit` (include/vcmmd.h): for each entry below
`nr_entries` with a non-NULL `str`, free it and set it to NULL.  Nothing else
is touched. -/
def vcmmd_ve_config_deinit (c : vcmmd_ve_config) : vcmmd_ve_config :=
  ⟨c.entries.map fun e => { e with str := none }⟩

/-- `vcmmd_ve_config_entry_is_string` (src/vcmmd.c): true exactly for
NODE_LIST and CPU_LIST. -/
def vcmmd_ve_config_entry_is_string (key : Nat) : Bool :=
  key == VCMMD_VE_CONFIG_NODE_LIST || key == VCMMD_VE_CONFIG_CPU_LIST

/-- `vcmmd_ve_config_extract_string` (src/vcmmd.c): refuse non-string keys,
else scan for the first entry with this key and a non-NULL `str`.  Result
`some s` models returning true with `*str = s`. -/
def vcmmd_ve_config_extract_string (c : vcmmd_ve_config) (key : Nat) :
    Option String :=
  if !vcmmd_ve_config_entry_is_string key then none
  else
    (c.entries.find? fun e => e.key == key && e.str.isSome).bind
      fun e => e.str

/-- `vcmmd_ve_config_extract` (src/vcmmd.c): refuse string keys, else scan for
the first entry with this key.  Result `some v` models returning true with
`*value = v`. -/
def vcmmd_ve_config_extract (c : vcmmd_ve_config) (key : Nat) : Option Nat :=
  if vcmmd_ve_config_entry_is_string key then none
  else (c.entries.find? fun e => e.key == key).map fun e => e.value

/-- `vcmmd_ve_config_key_present` (src/vcmmd.c). -/
def vcmmd_ve_config_key_present (c : vcmmd_ve_config) (key : Nat) : Bool :=
  c.entries.any fun e => e.key == key

/-- `_vcmmd_ve_config_append` (src/vcmmd.c): reject if the key is present or
the array is full, otherwise strdup the string (NULL becomes "") and append
the entry.  Returns (C return value, config afterwards); on rejection the
config is unchanged.  `strdup` failure is not modelled. -/
def _vcmmd_ve_config_append (c : vcmmd_ve_config) (key : Nat) (value : Nat)
    (str : Option String) : Bool × vcmmd_ve_config :=
  if vcmmd_ve_config_key_present c key ||
      c.nr_entries == __NR_VCMMD_VE_CONFIG_KEYS then
    (false, c)
  else
    (true, ⟨c.entries ++ [⟨key, value, some (str.getD "")⟩]⟩)

/-- `vcmmd_ve_config_append_string` (src/vcmmd.c). -/
def vcmmd_ve_config_append_string (c : vcmmd_ve_config) (key : Nat)
    (str : String) : Bool × vcmmd_ve_config :=
  if !vcmmd_ve_config_entry_is_string key then (false, c)
  else _vcmmd_ve_config_append c key 0 (some str)

/-- `vcmmd_ve_config_append` (src/vcmmd.c). -/
def vcmmd_ve_config_append (c : vcmmd_ve_config) (key : Nat) (value : Nat) :
    Bool × vcmmd_ve_config :=
  if vcmmd_ve_config_entry_is_string key then (false, c)
  else _vcmmd_ve_config_append c key value none

/-- One client-side call that builds a config: `vcmmd_ve_config_append` or
`vcmmd_ve_config_append_string`. -/
inductive vcmmd_config_op where
  | num (key value : Nat)
  | txt (key : Nat) (str : String)
deriving DecidableEq, Repr

/-- Run one append call, keeping the config it leaves behind (on rejection
that is the unchanged input config). -/
def vcmmd_run_op (c : vcmmd_ve_config) (op : vcmmd_config_op) :
    vcmmd_ve_config :=
  match op with
  | .num key value => (vcmmd_ve_config_append c key value).2
  | .txt key str => (vcmmd_ve_config_append_string c key str).2

/-- The config produced by `vcmmd_ve_config_init` followed by a sequence of
append calls. -/
def vcmmd_run_ops (ops : List vcmmd_config_op) : vcmmd_ve_config :=
  ops.foldl vcmmd_run_op vcmmd_ve_config_init

/-- One wire struct `(q t s)` of the config array: uint16 tag, uint64 value,
string. -/
structure vcmmd_wire_tuple where
  tag : Nat
  value : Nat
  str : String
deriving DecidableEq, Repr

/-- `append_config_entry` (src/vcmmd.c): the key is sent through
`append_uint16`, so it is truncated mod 2^16; `entry->str` is always non-NULL
for configs built by the append helpers (`.getD ""` is never exercised on
such configs). -/
def append_config_entry (e : vcmmd_ve_config_entry) : vcmmd_wire_tuple :=
  ⟨e.key % 65536, e.value, e.str.getD ""⟩

/-- `append_config` (src/vcmmd.c): the entries in order, each encoded as one
wire struct. -/
def append_config (c : vcmmd_ve_config) : List vcmmd_wire_tuple :=
  c.entries.map append_config_entry

/-- One iteration body of the decode loop of `vcmmd_get_ve_config`
(src/vcmmd.c lines 419-426): string-kind tags go through
`vcmmd_ve_config_append_string` (the uint64 field is ignored), every other
tag -- the remaining ontology keys and all unknown tags alike -- goes through
`vcmmd_ve_config_append` (the string field is ignored). -/
def vcmmd_decode_step (c : vcmmd_ve_config) (t : vcmmd_wire_tuple) :
    Bool × vcmmd_ve_config :=
  if vcmmd_ve_config_entry_is_string t.tag then
    vcmmd_ve_config_append_string c t.tag t.str
  else
    vcmmd_ve_config_append c t.tag t.value

/-- The do/while decode loop of `vcmmd_get_ve_config` (src/vcmmd.c lines
402-427).  The loop body runs at least once: on an empty array the first
`dbus_message_iter_get_arg_type` is not DBUS_TYPE_STRUCT, which is the error
path.  A rejected append is also the error path.  After a processed struct,
`dbus_message_iter_next` returning FALSE ends the loop successfully.
Returns (loop reached the success exit, config built so far). -/
def vcmmd_decode_loop (c : vcmmd_ve_config) :
    List vcmmd_wire_tuple → Bool × vcmmd_ve_config
  | [] => (false, c)
  | t :: ts =>
    let r := vcmmd_decode_step c t
    if !r.1 then (false, r.2)
    else if ts.isEmpty then (true, r.2)
    else vcmmd_decode_loop r.2 ts

/-- Reply interpretation of `vcmmd_get_ve_config` (src/vcmmd.c lines
387-438), from `vcmmd_ve_config_init` on: a non-zero leading status takes the
error path, as does a failed decode; the error path runs
`vcmmd_ve_config_deinit` on the partially built config and returns
VCMMD_ERROR_CONNECTION_FAILED.  Result: (return value, caller's *ve_config
after the call). -/
def vcmmd_get_ve_config_reply (status : Int) (ts : List vcmmd_wire_tuple) :
    Int × vcmmd_ve_config :=
  if status ≠ 0 then
    (VCMMD_ERROR_CONNECTION_FAILED, vcmmd_ve_config_deinit vcmmd_ve_config_init)
  else if (vcmmd_decode_loop vcmmd_ve_config_init ts).1 then
    (0, (vcmmd_decode_loop vcmmd_ve_config_init ts).2)
  else
    (VCMMD_ERROR_CONNECTION_FAILED,
      vcmmd_ve_config_deinit (vcmmd_decode_loop vcmmd_ve_config_init ts).2)

/-- Reply interpretation of `vcmmd_get_ve_state` (src/vcmmd.c lines 457-479)
for a well-shaped (int32 status, boolean active) reply.  Result: (return
value, state stored through *ve_state, `none` when it is left unwritten). -/
def vcmmd_get_ve_state_reply (err : Int) (active : Bool) : Int × Option Nat :=
  if err ≠ 0 then
    if err = VCMMD_ERROR_VE_NOT_REGISTERED then (0, some VCMMD_VE_UNREGISTERED)
    else (err, none)
  else if active then (0, some VCMMD_VE_ACTIVE)
  else (0, some VCMMD_VE_REGISTERED)

/-- The C comparison `strlen(ret) > len - 1` of vcmmd_get_current_policy /
vcmmd_get_policy_from_file: `len` is a (32-bit) signed int, `len - 1` is
converted to the unsigned 64-bit `size_t` for the comparison, i.e. taken
mod 2^64. -/
def vcmmd_policy_overflows (ret : String) (len : Int) : Bool :=
  decide (ret.length > ((len - 1) % (2 ^ 64 : Int)).toNat)

/-- Reply interpretation of `vcmmd_get_current_policy` (src/vcmmd.c lines
495-509) for a well-shaped string reply: if the string fails the length
check, return VCMMD_ERROR_NO_MEMORY without touching the caller's buffer,
else strcpy it.  Result: (return value, buffer contents written, `none` when
nothing is written). -/
def vcmmd_get_current_policy_reply (ret : String) (len : Int) :
    Int × Option String :=
  if vcmmd_policy_overflows ret len then (VCMMD_ERROR_NO_MEMORY, none)
  else (0, some ret)

/-- Reply interpretation of `vcmmd_get_policy_from_file` (src/vcmmd.c lines
525-539); the logic is verbatim that of `vcmmd_get_current_policy`. -/
def vcmmd_get_policy_from_file_reply (ret : String) (len : Int) :
    Int × Option String :=
  if vcmmd_policy_overflows ret len then (VCMMD_ERROR_NO_MEMORY, none)
  else (0, some ret)

/-- `service_err_list` of `vcmmd_strerror` (src/vcmmd.c). -/
def service_err_list : List String :=
  ["Invalid VE name",
   "Invalid VE type",
   "Invalid VE configuration",
   "VE name already in use",
   "VE not registered",
   "VE already active",
   "VE operation failed",
   "Unable to apply VE guarantee",
   "VE not active",
   "Too many requests"]

/-- `lib_err_list` of `vcmmd_strerror` (src/vcmmd.c). -/
def lib_err_list : List String :=
  ["Failed to allocate memory",
   "Failed to connect to VCMMD service"]

/-- The message `vcmmd_strerror` selects for a code: Success for 0, a table
entry for the two ranges, Unknown error otherwise. -/
def vcmmd_strerror_msg (err : Int) : String :=
  if err = 0 then "Success"
  else if __VCMMD_SERVICE_ERROR_START ≤ err ∧ err < __VCMMD_SERVICE_ERROR_END
    then service_err_list.getD (err - __VCMMD_SERVICE_ERROR_START).toNat ""
  else if __VCMMD_LIB_ERROR_START ≤ err ∧ err < __VCMMD_LIB_ERROR_END
    then lib_err_list.getD (err - __VCMMD_LIB_ERROR_START).toNat ""
  else "Unknown error"

/-- The first `buflen` bytes of the caller's buffer after `vcmmd_strerror`:
`strncpy(buf, err_str, buflen)` copies at most `buflen` characters, padding
with NUL bytes when the message is shorter, and then `buf[buflen - 1]` is set
to NUL. -/
def vcmmd_strerror_buf (err : Int) (buflen : Nat) : List Char :=
  let s := vcmmd_strerror_msg err
  ((s.data.take buflen) ++ List.replicate (buflen - s.length) '\x00').set
    (buflen - 1) '\x00'

/-- The entry the decode loop of `vcmmd_get_ve_config` builds from one wire
struct when its append succeeds: string-kind tags store the string (with
numeric value 0, as `vcmmd_ve_config_append_string` passes 0), all other tags
store the numeric value (with the strdup of NULL, ""). -/
def vcmmd_decoded_entry (t : vcmmd_wire_tuple) : vcmmd_ve_config_entry :=
  if vcmmd_ve_config_entry_is_string t.tag then ⟨t.tag, 0, some t.str⟩
  else ⟨t.tag, t.value, some ""⟩

/-- Invariant of every config reachable from `vcmmd_ve_config_init` through
the append helpers: keys are pairwise distinct, at most
`__NR_VCMMD_VE_CONFIG_KEYS` entries, string-kind entries carry numeric value
0 and a non-NULL string, numeric entries carry the strdup of NULL, "". -/
def vcmmd_config_wf (c : vcmmd_ve_config) : Prop :=
  (c.entries.map vcmmd_ve_config_entry.key).Nodup ∧
  c.nr_entries ≤ __NR_VCMMD_VE_CONFIG_KEYS ∧
  ∀ e ∈ c.entries,
    if vcmmd_ve_config_entry_is_string e.key then
      e.value = 0 ∧ e.str.isSome
    else e.str = some ""

/-- Presence via `vcmmd_ve_config_key_present` is membership of the key in
the entry keys. -/
theorem vcmmd_key_present_iff (c : vcmmd_ve_config) (k : Nat) :
    vcmmd_ve_config_key_present c k = true ↔
      k ∈ c.entries.map vcmmd_ve_config_entry.key := by
  unfold vcmmd_ve_config_key_present
  rw [List.any_eq_true]
  simp only [List.mem_map, beq_iff_eq]

/-- An append for a key already present returns false with the config
untouched. -/
theorem vcmmd_append_present (c : vcmmd_ve_config) (k v : Nat)
    (h : vcmmd_ve_config_key_present c k = true) :
    vcmmd_ve_config_append c k v = (false, c) := by
  unfold vcmmd_ve_config_append _vcmmd_ve_config_append
  simp [h]

/-- A string append for a key already present returns false with the config
untouched. -/
theorem vcmmd_append_string_present (c : vcmmd_ve_config) (k : Nat)
    (s : String) (h : vcmmd_ve_config_key_present c k = true) :
    vcmmd_ve_config_append_string c k s = (false, c) := by
  unfold vcmmd_ve_config_append_string _vcmmd_ve_config_append
  simp [h]

/-- An append on a full config returns false with the config untouched. -/
theorem vcmmd_append_full (c : vcmmd_ve_config) (k v : Nat)
    (h : c.nr_entries = __NR_VCMMD_VE_CONFIG_KEYS) :
    vcmmd_ve_config_append c k v = (false, c) := by
  unfold vcmmd_ve_config_append _vcmmd_ve_config_append
  simp [h]

/-- A string append on a full config returns false with the config
untouched. -/
theorem vcmmd_append_string_full (c : vcmmd_ve_config) (k : Nat) (s : String)
    (h : c.nr_entries = __NR_VCMMD_VE_CONFIG_KEYS) :
    vcmmd_ve_config_append_string c k s = (false, c) := by
  unfold vcmmd_ve_config_append_string _vcmmd_ve_config_append
  simp [h]

/-- When the key is absent and the config is not full,
`_vcmmd_ve_config_append` appends the entry and reports success. -/
theorem _vcmmd_append_ok (c : vcmmd_ve_config) (k v : Nat) (s : Option String)
    (hp : vcmmd_ve_config_key_present c k = false)
    (hfull : c.nr_entries ≠ __NR_VCMMD_VE_CONFIG_KEYS) :
    _vcmmd_ve_config_append c k v s =
      (true, ⟨c.entries ++ [⟨k, v, some (s.getD "")⟩]⟩) := by
  unfold _vcmmd_ve_config_append
  rw [if_neg (by simp [hp, hfull])]

/-- A successful `_vcmmd_ve_config_append` preserves the reachable-config
invariant. -/
theorem vcmmd_append_wf (c : vcmmd_ve_config) (k v : Nat) (s : Option String)
    (hwf : vcmmd_config_wf c)
    (hp : vcmmd_ve_config_key_present c k = false)
    (hfull : c.nr_entries ≠ __NR_VCMMD_VE_CONFIG_KEYS)
    (hks : if vcmmd_ve_config_entry_is_string k then v = 0
      else s = none) :
    vcmmd_config_wf ⟨c.entries ++ [⟨k, v, some (s.getD "")⟩]⟩ := by
  obtain ⟨hnd, hlen, hent⟩ := hwf
  have hk : k ∉ c.entries.map vcmmd_ve_config_entry.key := by
    intro hmem
    have hcontra := (vcmmd_key_present_iff c k).2 hmem
    rw [hp] at hcontra
    exact Bool.false_ne_true hcontra
  refine ⟨?_, ?_, ?_⟩
  · simp only [List.map_append, List.map_cons, List.map_nil]
    refine hnd.append (List.nodup_singleton k) ?_
    intro a ha hb
    rw [List.mem_singleton] at hb
    rw [hb] at ha
    exact hk ha
  · have h1 : c.entries.length ≤ 7 := hlen
    have h2 : c.entries.length ≠ 7 := hfull
    show (c.entries ++ [_]).length ≤ 7
    rw [List.length_append]
    simp only [List.length_singleton]
    omega
  · intro e he
    rw [List.mem_append, List.mem_singleton] at he
    rcases he with he | he
    · exact hent e he
    · subst he
      by_cases hs : vcmmd_ve_config_entry_is_string k = true
      · rw [hs] at hks
        simp only [hs, if_true]
        exact ⟨hks, by simp⟩
      · rw [if_neg hs] at hks
        simp only [hs, if_false]
        simp [hks]

/-- Each append call preserves the reachable-config invariant. -/
theorem vcmmd_run_op_wf (c : vcmmd_ve_config) (op : vcmmd_config_op)
    (h : vcmmd_config_wf c) : vcmmd_config_wf (vcmmd_run_op c op) := by
  cases op with
  | num k v =>
    show vcmmd_config_wf (vcmmd_ve_config_append c k v).2
    by_cases hs : vcmmd_ve_config_entry_is_string k = true
    · rw [show vcmmd_ve_config_append c k v = (false, c) from by
        unfold vcmmd_ve_config_append; rw [if_pos hs]]
      exact h
    · by_cases hp : vcmmd_ve_config_key_present c k = true
      · rw [vcmmd_append_present c k v hp]
        exact h
      · by_cases hfull : c.nr_entries = __NR_VCMMD_VE_CONFIG_KEYS
        · rw [vcmmd_append_full c k v hfull]
          exact h
        · have hp' : vcmmd_ve_config_key_present c k = false := by
            simpa using hp
          unfold vcmmd_ve_config_append
          rw [if_neg hs, _vcmmd_append_ok c k v none hp' hfull]
          exact vcmmd_append_wf c k v none h hp' hfull (by simp [hs])
  | txt k s =>
    show vcmmd_config_wf (vcmmd_ve_config_append_string c k s).2
    by_cases hs : vcmmd_ve_config_entry_is_string k = true
    · by_cases hp : vcmmd_ve_config_key_present c k = true
      · rw [vcmmd_append_string_present c k s hp]
        exact h
      · by_cases hfull : c.nr_entries = __NR_VCMMD_VE_CONFIG_KEYS
        · rw [vcmmd_append_string_full c k s hfull]
          exact h
        · have hp' : vcmmd_ve_config_key_present c k = false := by
            simpa using hp
          unfold vcmmd_ve_config_append_string
          rw [if_neg (by simp [hs]), _vcmmd_append_ok c k 0 (some s) hp' hfull]
          exact vcmmd_append_wf c k 0 (some s) h hp' hfull (by simp [hs])
    · rw [show vcmmd_ve_config_append_string c k s = (false, c) from by
        unfold vcmmd_ve_config_append_string; rw [if_pos (by simp [hs])]]
      exact h

/-- Every config built from `vcmmd_ve_config_init` by append calls satisfies
the reachable-config invariant. -/
theorem vcmmd_run_ops_wf (ops : List vcmmd_config_op) :
    vcmmd_config_wf (vcmmd_run_ops ops) := by
  have general : ∀ (l : List vcmmd_config_op) (c : vcmmd_ve_config),
      vcmmd_config_wf c → vcmmd_config_wf (l.foldl vcmmd_run_op c) := by
    intro l
    induction l with
    | nil => intro c hc; exact hc
    | cons op l ih =>
      intro c hc
      exact ih _ (vcmmd_run_op_wf c op hc)
  refine general ops vcmmd_ve_config_init ?_
  refine ⟨List.nodup_nil, by simp [vcmmd_ve_config_init,
    vcmmd_ve_config.nr_entries], ?_⟩
  intro e he
  simp [vcmmd_ve_config_init] at he

/-- C1: for every sequence of `vcmmd_ve_config_append` /
`vcmmd_ve_config_append_string` calls starting from `vcmmd_ve_config_init`,
each key occurs in at most one entry; an append for a key already present
returns false and leaves the config (entries and nr_entries) exactly as
before; and nr_entries never exceeds `__NR_VCMMD_VE_CONFIG_KEYS`. -/
theorem C1_append_invariants (ops : List vcmmd_config_op) (k v : Nat)
    (s : String) :
    ((vcmmd_run_ops ops).entries.map vcmmd_ve_config_entry.key).Nodup ∧
    (vcmmd_run_ops ops).nr_entries ≤ __NR_VCMMD_VE_CONFIG_KEYS ∧
    (vcmmd_ve_config_key_present (vcmmd_run_ops ops) k = true →
      vcmmd_ve_config_append (vcmmd_run_ops ops) k v =
        (false, vcmmd_run_ops ops) ∧
      vcmmd_ve_config_append_string (vcmmd_run_ops ops) k s =
        (false, vcmmd_run_ops ops)) := by
  obtain ⟨hnd, hlen, -⟩ := vcmmd_run_ops_wf ops
  exact ⟨hnd, hlen, fun hp =>
    ⟨vcmmd_append_present _ k v hp, vcmmd_append_string_present _ k s hp⟩⟩

/-- Witness for C1 at append(GUARANTEE, 100); append(LIMIT, 200): GUARANTEE
is then present and a further append for it is rejected unchanged. -/
theorem C1_append_invariants_witness :
    vcmmd_ve_config_key_present
      (vcmmd_run_ops [.num 0 100, .num 1 200]) 0 = true ∧
    vcmmd_ve_config_append (vcmmd_run_ops [.num 0 100, .num 1 200]) 0 50 =
      (false, vcmmd_run_ops [.num 0 100, .num 1 200]) :=
  ⟨by decide,
    ((C1_append_invariants [.num 0 100, .num 1 200] 0 50 "x").2.2
      (by decide)).1⟩

/-- C7: on every config however built, `vcmmd_ve_config_extract` reports
absent for every string-kind key and `vcmmd_ve_config_extract_string` reports
absent for every numeric-kind key (the kind check precedes the scan, so the
append order is irrelevant). -/
theorem C7_kind_fidelity (c : vcmmd_ve_config) (k : Nat) :
    (vcmmd_ve_config_entry_is_string k = true →
      vcmmd_ve_config_extract c k = none) ∧
    (vcmmd_ve_config_entry_is_string k = false →
      vcmmd_ve_config_extract_string c k = none) := by
  constructor
  · intro h
    simp [vcmmd_ve_config_extract, h]
  · intro h
    simp [vcmmd_ve_config_extract_string, h]

/-- Witness for C7: a config holding a NODE_LIST entry yields nothing
through `vcmmd_ve_config_extract`, and one holding a GUARANTEE entry yields
nothing through `vcmmd_ve_config_extract_string`. -/
theorem C7_kind_fidelity_witness :
    vcmmd_ve_config_extract ⟨[⟨4, 0, some "0-1"⟩]⟩ 4 = none ∧
    vcmmd_ve_config_extract_string ⟨[⟨0, 7, some ""⟩]⟩ 0 = none :=
  ⟨(C7_kind_fidelity ⟨[⟨4, 0, some "0-1"⟩]⟩ 4).1 (by decide),
   (C7_kind_fidelity ⟨[⟨0, 7, some ""⟩]⟩ 0).2 (by decide)⟩

/-- C6: when the IsVEActive reply carries status
VCMMD_ERROR_VE_NOT_REGISTERED, `vcmmd_get_ve_state` returns 0 (success) and
stores VCMMD_VE_UNREGISTERED through *ve_state, for either value of the
active flag; the status is never propagated as an error. -/
theorem C6_state_translation (active : Bool) :
    vcmmd_get_ve_state_reply VCMMD_ERROR_VE_NOT_REGISTERED active =
      (0, some VCMMD_VE_UNREGISTERED) := by
  cases active <;> rfl

/-- Scanning by key commutes with `vcmmd_ve_config_deinit`: clearing the
`str` fields does not change which entry a key-only scan finds. -/
theorem vcmmd_find_key_deinit (l : List vcmmd_ve_config_entry) (k : Nat) :
    ((l.map fun e => { e with str := none }).find? fun e => e.key == k) =
      (l.find? fun e => e.key == k).map fun e => { e with str := none } := by
  induction l with
  | nil => rfl
  | cons a l ih =>
    simp only [List.map_cons, List.find?_cons]
    by_cases h : (a.key == k) = true
    · simp [h]
    · simp [h, ih]

/-- C9: `vcmmd_ve_config_deinit` modifies only the `str` field of each
entry: keys, numeric values and nr_entries are unchanged, so
`vcmmd_ve_config_extract` returns exactly the same results as before, while
`vcmmd_ve_config_extract_string` reports absent for every key; a second
deinit changes nothing. -/
theorem C9_deinit_frame (c : vcmmd_ve_config) (k : Nat) :
    (vcmmd_ve_config_deinit c).entries.map vcmmd_ve_config_entry.key =
      c.entries.map vcmmd_ve_config_entry.key ∧
    (vcmmd_ve_config_deinit c).entries.map vcmmd_ve_config_entry.value =
      c.entries.map vcmmd_ve_config_entry.value ∧
    (vcmmd_ve_config_deinit c).nr_entries = c.nr_entries ∧
    vcmmd_ve_config_extract (vcmmd_ve_config_deinit c) k =
      vcmmd_ve_config_extract c k ∧
    vcmmd_ve_config_extract_string (vcmmd_ve_config_deinit c) k = none ∧
    vcmmd_ve_config_deinit (vcmmd_ve_config_deinit c) =
      vcmmd_ve_config_deinit c := by
  refine ⟨?_, ?_, ?_, ?_, ?_, ?_⟩
  · simp [vcmmd_ve_config_deinit, List.map_map]
  · simp [vcmmd_ve_config_deinit, List.map_map]
  · simp [vcmmd_ve_config_deinit, vcmmd_ve_config.nr_entries]
  · unfold vcmmd_ve_config_extract
    by_cases hs : vcmmd_ve_config_entry_is_string k = true
    · rw [if_pos hs, if_pos hs]
    · rw [if_neg hs, if_neg hs]
      show ((vcmmd_ve_config_deinit c).entries.find? _).map _ = _
      unfold vcmmd_ve_config_deinit
      rw [vcmmd_find_key_deinit]
      rw [Option.map_map]
      rfl
  · unfold vcmmd_ve_config_extract_string
    by_cases hs : vcmmd_ve_config_entry_is_string k = true
    · rw [if_neg (by simp [hs])]
      have : ((vcmmd_ve_config_deinit c).entries.find? fun e =>
          e.key == k && e.str.isSome) = none := by
        rw [List.find?_eq_none]
        intro e he
        unfold vcmmd_ve_config_deinit at he
        rw [List.mem_map] at he
        obtain ⟨a, -, ha⟩ := he
        rw [← ha]
        simp
      rw [this]
      rfl
    · rw [if_pos (by simp [hs])]
  · unfold vcmmd_ve_config_deinit
    simp [List.map_map]

/-- `vcmmd_strerror` writes exactly `buflen` bytes into the caller's
buffer (strncpy pads or cuts to `buflen`). -/
theorem vcmmd_strerror_buf_length (err : Int) (buflen : Nat) :
    (vcmmd_strerror_buf err buflen).length = buflen := by
  unfold vcmmd_strerror_buf
  rw [List.length_set, List.length_append, List.length_take,
    List.length_replicate]
  have : (vcmmd_strerror_msg err).data.length = (vcmmd_strerror_msg err).length := rfl
  omega

/-- C10: for every error code and every buffer length of at least one byte,
`vcmmd_strerror` terminates writing exactly `buflen` bytes (hence at most
`buflen`), leaves the buffer NUL-terminated, and the message selected for any
code -- in range or not -- is one of the fixed table strings, "Success" or
"Unknown error": no code indexes outside the fixed message tables.  (The C
function then returns `buf` itself; the model returns the buffer contents.) -/
theorem C10_strerror_safety (err : Int) (buflen : Nat) (h : 1 ≤ buflen) :
    (vcmmd_strerror_buf err buflen).length = buflen ∧
    (vcmmd_strerror_buf err buflen).getLast? = some '\x00' ∧
    vcmmd_strerror_msg err ∈
      "Success" :: "Unknown error" :: (service_err_list ++ lib_err_list) := by
  refine ⟨vcmmd_strerror_buf_length err buflen, ?_, ?_⟩
  · rw [List.getLast?_eq_getElem?, vcmmd_strerror_buf_length err buflen]
    unfold vcmmd_strerror_buf
    refine List.getElem?_set_self ?_
    have := vcmmd_strerror_buf_length err buflen
    unfold vcmmd_strerror_buf at this
    rw [List.length_set] at this
    omega
  · unfold vcmmd_strerror_msg
    by_cases h0 : err = 0
    · rw [if_pos h0]
      exact List.mem_cons_self _ _
    · rw [if_neg h0]
      by_cases hsvc : __VCMMD_SERVICE_ERROR_START ≤ err ∧
          err < __VCMMD_SERVICE_ERROR_END
      · rw [if_pos hsvc]
        obtain ⟨hs1, hs2⟩ := hsvc
        have hlt : (err - __VCMMD_SERVICE_ERROR_START).toNat <
            service_err_list.length := by
          simp only [service_err_list, List.length_cons, List.length_nil,
            __VCMMD_SERVICE_ERROR_START, __VCMMD_SERVICE_ERROR_END] at *
          omega
        rw [List.getD_eq_getElem service_err_list "" hlt]
        exact List.mem_cons_of_mem _ (List.mem_cons_of_mem _
          (List.mem_append_left _ (List.getElem_mem hlt)))
      · rw [if_neg hsvc]
        by_cases hlib : __VCMMD_LIB_ERROR_START ≤ err ∧
            err < __VCMMD_LIB_ERROR_END
        · rw [if_pos hlib]
          obtain ⟨hl1, hl2⟩ := hlib
          have hlt : (err - __VCMMD_LIB_ERROR_START).toNat <
              lib_err_list.length := by
            simp only [lib_err_list, List.length_cons, List.length_nil,
              __VCMMD_LIB_ERROR_START, __VCMMD_LIB_ERROR_END] at *
            omega
          rw [List.getD_eq_getElem lib_err_list "" hlt]
          exact List.mem_cons_of_mem _ (List.mem_cons_of_mem _
            (List.mem_append_right _ (List.getElem_mem hlt)))
        · rw [if_neg hlib]
          exact List.mem_cons_of_mem _ (List.mem_cons_self _ _)

/-- Witness for C10 at the out-of-range code 1005 and a 4-byte buffer. -/
theorem C10_strerror_safety_witness :
    (1 ≤ 4 ∧ (vcmmd_strerror_buf 1005 4).length = 4) ∧
    (vcmmd_strerror_buf 1005 4).getLast? = some '\x00' ∧
    vcmmd_strerror_msg 1005 ∈
      "Success" :: "Unknown error" :: (service_err_list ++ lib_err_list) :=
  ⟨⟨by decide, (C10_strerror_safety 1005 4 (by decide)).1⟩,
   (C10_strerror_safety 1005 4 (by decide)).2.1,
   (C10_strerror_safety 1005 4 (by decide)).2.2⟩

/-- For a length argument in 1..2^31-1, the C comparison
`strlen(ret) > len - 1` is the mathematical one. -/
theorem vcmmd_policy_overflows_of_lt (ret : String) (len : Int)
    (h1 : 1 ≤ len) (h2 : len < 2 ^ 31) (h3 : (ret.length : Int) > len - 1) :
    vcmmd_policy_overflows ret len = true := by
  unfold vcmmd_policy_overflows
  rw [decide_eq_true_iff]
  rw [Int.emod_eq_of_lt (by omega) (by omega)]
  omega

/-- C8 (amended): for every buffer length len with 1 <= len < 2^31 (the C
int range), if the daemon's string does not fit (its length exceeds len - 1),
both `vcmmd_get_current_policy` and `vcmmd_get_policy_from_file` return
VCMMD_ERROR_NO_MEMORY, a library-range error, and write nothing into the
caller's buffer.  The original claim quantified over every len: it fails at
len = 0, where `len - 1` converts to SIZE_MAX and the string is copied. -/
theorem C8_policy_no_truncation (ret : String) (len : Int) (h1 : 1 ≤ len)
    (h2 : len < 2 ^ 31) (h3 : (ret.length : Int) > len - 1) :
    vcmmd_get_current_policy_reply ret len = (VCMMD_ERROR_NO_MEMORY, none) ∧
    vcmmd_get_policy_from_file_reply ret len =
      (VCMMD_ERROR_NO_MEMORY, none) := by
  have hov := vcmmd_policy_overflows_of_lt ret len h1 h2 h3
  constructor
  · unfold vcmmd_get_current_policy_reply
    rw [if_pos hov]
  · unfold vcmmd_get_policy_from_file_reply
    rw [if_pos hov]

/-- Witness for C8 with the three-byte string "abc" and a two-byte
buffer. -/
theorem C8_policy_no_truncation_witness :
    ((1 : Int) ≤ 2 ∧ (2 : Int) < 2 ^ 31 ∧ (("abc".length : Int) > 2 - 1)) ∧
    vcmmd_get_current_policy_reply "abc" 2 = (VCMMD_ERROR_NO_MEMORY, none) ∧
    vcmmd_get_policy_from_file_reply "abc" 2 =
      (VCMMD_ERROR_NO_MEMORY, none) :=
  ⟨⟨by decide, by decide, by decide⟩,
   C8_policy_no_truncation "abc" 2 (by decide) (by decide) (by decide)⟩

/-- Counterexample to C8 as stated: with len = 0 the one-byte string "a"
does not fit (1 > len - 1 = -1), yet both operations succeed and copy it,
because `len - 1` is converted to the unsigned size_t 2^64 - 1 for the
comparison. -/
theorem C8_policy_counterexample :
    (("a".length : Int) > 0 - 1) ∧
    vcmmd_get_current_policy_reply "a" 0 = (0, some "a") ∧
    vcmmd_get_policy_from_file_reply "a" 0 = (0, some "a") := by
  refine ⟨by decide, ?_, ?_⟩ <;> decide

/-- When the tag is absent and the config not full, one decode-loop
iteration appends `vcmmd_decoded_entry` and succeeds, for known and unknown
tags alike. -/
theorem vcmmd_decode_step_ok (c : vcmmd_ve_config) (t : vcmmd_wire_tuple)
    (hp : vcmmd_ve_config_key_present c t.tag = false)
    (hfull : c.nr_entries ≠ __NR_VCMMD_VE_CONFIG_KEYS) :
    vcmmd_decode_step c t = (true, ⟨c.entries ++ [vcmmd_decoded_entry t]⟩) := by
  unfold vcmmd_decode_step vcmmd_decoded_entry
  by_cases hs : vcmmd_ve_config_entry_is_string t.tag = true
  · rw [if_pos hs, if_pos hs]
    unfold vcmmd_ve_config_append_string
    rw [if_neg (by simp [hs]), _vcmmd_append_ok c t.tag 0 (some t.str) hp hfull]
    rfl
  · rw [if_neg hs, if_neg hs]
    unfold vcmmd_ve_config_append
    rw [if_neg hs, _vcmmd_append_ok c t.tag t.value none hp hfull]
    rfl

/-- Inversion: a successful decode-loop iteration means the tag was absent,
the config not full, and the decoded entry was appended. -/
theorem vcmmd_decode_step_inv (c : vcmmd_ve_config) (t : vcmmd_wire_tuple)
    (h : (vcmmd_decode_step c t).1 = true) :
    vcmmd_ve_config_key_present c t.tag = false ∧
    c.nr_entries ≠ __NR_VCMMD_VE_CONFIG_KEYS ∧
    (vcmmd_decode_step c t).2 = ⟨c.entries ++ [vcmmd_decoded_entry t]⟩ := by
  by_cases hp : vcmmd_ve_config_key_present c t.tag = true
  · exfalso
    unfold vcmmd_decode_step at h
    by_cases hs : vcmmd_ve_config_entry_is_string t.tag = true
    · rw [if_pos hs, vcmmd_append_string_present c t.tag t.str hp] at h
      exact Bool.false_ne_true h
    · rw [if_neg hs, vcmmd_append_present c t.tag t.value hp] at h
      exact Bool.false_ne_true h
  · have hp' : vcmmd_ve_config_key_present c t.tag = false := by simpa using hp
    by_cases hfull : c.nr_entries = __NR_VCMMD_VE_CONFIG_KEYS
    · exfalso
      unfold vcmmd_decode_step at h
      by_cases hs : vcmmd_ve_config_entry_is_string t.tag = true
      · rw [if_pos hs, vcmmd_append_string_full c t.tag t.str hfull] at h
        exact Bool.false_ne_true h
      · rw [if_neg hs, vcmmd_append_full c t.tag t.value hfull] at h
        exact Bool.false_ne_true h
    · exact ⟨hp', hfull, by rw [vcmmd_decode_step_ok c t hp' hfull]⟩

/-- The decode loop succeeds on a nonempty struct array whose tags avoid
the accumulated keys and each other and which fits the capacity, building
exactly the decoded entries in stream order. -/
theorem vcmmd_decode_loop_ok (ts : List vcmmd_wire_tuple) :
    ∀ c : vcmmd_ve_config, ts ≠ [] →
    ((c.entries.map vcmmd_ve_config_entry.key) ++
      ts.map vcmmd_wire_tuple.tag).Nodup →
    c.nr_entries + ts.length ≤ __NR_VCMMD_VE_CONFIG_KEYS →
    vcmmd_decode_loop c ts =
      (true, ⟨c.entries ++ ts.map vcmmd_decoded_entry⟩) := by
  induction ts with
  | nil => intro c hne _ _; exact absurd rfl hne
  | cons t ts ih =>
    intro c _ hnd hlen
    have htag : t.tag ∉ c.entries.map vcmmd_ve_config_entry.key := by
      intro hmem
      rw [List.nodup_append] at hnd
      exact hnd.2.2 hmem (by simp)
    have hp : vcmmd_ve_config_key_present c t.tag = false := by
      rcases hb : vcmmd_ve_config_key_present c t.tag with _ | _
      · rfl
      · exact absurd ((vcmmd_key_present_iff c t.tag).1 hb) htag
    have hfull : c.nr_entries ≠ __NR_VCMMD_VE_CONFIG_KEYS := by
      have : c.nr_entries + (t :: ts).length ≤ 7 := hlen
      simp only [List.length_cons, __NR_VCMMD_VE_CONFIG_KEYS] at *
      omega
    have hstep := vcmmd_decode_step_ok c t hp hfull
    unfold vcmmd_decode_loop
    rw [hstep]
    simp only [Bool.not_true, if_false]
    cases ts with
    | nil =>
      simp
    | cons t2 ts2 =>
      rw [if_neg (by simp)]
      have hres := ih ⟨c.entries ++ [vcmmd_decoded_entry t]⟩ (by simp) (by
        have hkeys : (⟨c.entries ++ [vcmmd_decoded_entry t]⟩ :
            vcmmd_ve_config).entries.map vcmmd_ve_config_entry.key =
            c.entries.map vcmmd_ve_config_entry.key ++ [t.tag] := by
          simp only [List.map_append, List.map_cons, List.map_nil]
          unfold vcmmd_decoded_entry
          by_cases hs : vcmmd_ve_config_entry_is_string t.tag = true
          · rw [if_pos hs]
          · rw [if_neg hs]
        rw [hkeys, List.append_assoc]
        simpa using hnd) (by
        show (c.entries ++ [vcmmd_decoded_entry t]).length + _ ≤ _
        rw [List.length_append]
        have : c.nr_entries + (t :: t2 :: ts2).length ≤
            __NR_VCMMD_VE_CONFIG_KEYS := hlen
        simp only [List.length_cons, List.length_singleton,
          List.length_nil] at *
        have hnr : c.nr_entries = c.entries.length := rfl
        omega)
      rw [hres]
      simp

/-- A successful decode loop run implies the accumulated keys and the
stream's tags are pairwise distinct. -/
theorem vcmmd_decode_loop_nodup (ts : List vcmmd_wire_tuple) :
    ∀ c c' : vcmmd_ve_config,
    vcmmd_decode_loop c ts = (true, c') →
    (c.entries.map vcmmd_ve_config_entry.key).Nodup →
    ((c.entries.map vcmmd_ve_config_entry.key) ++
      ts.map vcmmd_wire_tuple.tag).Nodup := by
  induction ts with
  | nil =>
    intro c c' h _
    exact absurd (congrArg Prod.fst h) (by simp [vcmmd_decode_loop])
  | cons t ts ih =>
    intro c c' h hnd
    unfold vcmmd_decode_loop at h
    rcases hr : vcmmd_decode_step c t with ⟨ok, c2⟩
    rw [hr] at h
    cases ok with
    | false => simp at h
    | true =>
      simp only [Bool.not_true, Bool.not_false, if_false] at h
      have hstep1 : (vcmmd_decode_step c t).1 = true := by rw [hr]
      obtain ⟨hp, hfull, hc2⟩ := vcmmd_decode_step_inv c t hstep1
      rw [hr] at hc2
      simp only at hc2
      have htag : t.tag ∉ c.entries.map vcmmd_ve_config_entry.key := by
        intro hmem
        have hcontra := (vcmmd_key_present_iff c t.tag).2 hmem
        rw [hp] at hcontra
        exact Bool.false_ne_true hcontra
      have hkeys : c2.entries.map vcmmd_ve_config_entry.key =
          c.entries.map vcmmd_ve_config_entry.key ++ [t.tag] := by
        rw [hc2]
        simp only [List.map_append, List.map_cons, List.map_nil]
        unfold vcmmd_decoded_entry
        by_cases hs : vcmmd_ve_config_entry_is_string t.tag = true
        · rw [if_pos hs]
        · rw [if_neg hs]
      have hnd1 : (c.entries.map vcmmd_ve_config_entry.key ++ [t.tag]).Nodup := by
        rw [List.nodup_append]
        refine ⟨hnd, List.nodup_singleton _, ?_⟩
        intro a ha hb
        rw [List.mem_singleton] at hb
        rw [hb] at ha
        exact htag ha
      cases ts with
      | nil =>
        simpa using hnd1
      | cons t2 ts2 =>
        rw [if_neg (by simp)] at h
        have hrec := ih c2 c' h (by rw [hkeys]; exact hnd1)
        rw [hkeys, List.append_assoc] at hrec
        simpa using hrec

/-- A status-zero GetVEConfig reply whose nonempty struct array has
pairwise-distinct tags and fits the capacity decodes successfully into
exactly the decoded entries in stream order. -/
theorem vcmmd_get_ve_config_reply_ok (ts : List vcmmd_wire_tuple)
    (hne : ts ≠ []) (hnd : (ts.map vcmmd_wire_tuple.tag).Nodup)
    (hlen : ts.length ≤ __NR_VCMMD_VE_CONFIG_KEYS) :
    vcmmd_get_ve_config_reply 0 ts = (0, ⟨ts.map vcmmd_decoded_entry⟩) := by
  have hdec := vcmmd_decode_loop_ok ts vcmmd_ve_config_init hne
    (by simpa [vcmmd_ve_config_init] using hnd)
    (by simpa [vcmmd_ve_config_init, vcmmd_ve_config.nr_entries] using hlen)
  unfold vcmmd_get_ve_config_reply
  rw [if_neg (by simp), hdec]
  simp [vcmmd_ve_config_init]

/-- C2 (amended): for every nonempty config built from successful append
calls whose keys fit the uint16 wire tag (the append key parameter is an
enum; the codec truncates it to uint16), encoding with `append_config` and
decoding through the status-zero GetVEConfig path yields the same config:
same (key, value-or-string) pairs in the same insertion order.  The original
claim also covered the empty config: it fails there, because the decode
loop's do/while body demands at least one struct. -/
theorem C2_roundtrip (ops : List vcmmd_config_op)
    (hne : (vcmmd_run_ops ops).entries ≠ [])
    (hkey : ∀ e ∈ (vcmmd_run_ops ops).entries, e.key < 65536) :
    vcmmd_get_ve_config_reply 0 (append_config (vcmmd_run_ops ops)) =
      (0, vcmmd_run_ops ops) := by
  obtain ⟨hnd, hlen, hent⟩ := vcmmd_run_ops_wf ops
  have htags : (append_config (vcmmd_run_ops ops)).map vcmmd_wire_tuple.tag =
      (vcmmd_run_ops ops).entries.map vcmmd_ve_config_entry.key := by
    unfold append_config
    rw [List.map_map]
    apply List.map_congr_left
    intro e he
    show (append_config_entry e).tag = e.key
    unfold append_config_entry
    exact Nat.mod_eq_of_lt (hkey e he)
  have hdec : (append_config (vcmmd_run_ops ops)).map vcmmd_decoded_entry =
      (vcmmd_run_ops ops).entries := by
    unfold append_config
    rw [List.map_map]
    have hid : ∀ e ∈ (vcmmd_run_ops ops).entries,
        vcmmd_decoded_entry (append_config_entry e) = e := by
      intro e he
      have hke := hent e he
      unfold vcmmd_decoded_entry append_config_entry
      simp only
      rw [Nat.mod_eq_of_lt (hkey e he)]
      by_cases hs : vcmmd_ve_config_entry_is_string e.key = true
      · rw [if_pos hs] at hke
        rw [if_pos hs]
        obtain ⟨hv, hstr⟩ := hke
        obtain ⟨s, hsome⟩ := Option.isSome_iff_exists.1 hstr
        cases e with
        | mk k v st =>
          simp only at hv hsome ⊢
          rw [hv, hsome]
          rfl
      · rw [if_neg hs] at hke
        rw [if_neg hs]
        cases e with
        | mk k v st =>
          simp only at hke ⊢
          rw [hke]
    calc (vcmmd_run_ops ops).entries.map
          (vcmmd_decoded_entry ∘ append_config_entry) =
        (vcmmd_run_ops ops).entries.map id := List.map_congr_left hid
      _ = (vcmmd_run_ops ops).entries := List.map_id _
  have hne2 : append_config (vcmmd_run_ops ops) ≠ [] := by
    unfold append_config
    simpa using hne
  have hlen2 : (append_config (vcmmd_run_ops ops)).length ≤
      __NR_VCMMD_VE_CONFIG_KEYS := by
    unfold append_config
    rw [List.length_map]
    exact hlen
  have hnd2 : ((append_config (vcmmd_run_ops ops)).map
      vcmmd_wire_tuple.tag).Nodup := by
    rw [htags]
    exact hnd
  rw [vcmmd_get_ve_config_reply_ok (append_config (vcmmd_run_ops ops))
    hne2 hnd2 hlen2, hdec]

/-- Witness for C2 at the config {swap:0, vram:67108864, node-list:"0-1"}. -/
theorem C2_roundtrip_witness :
    ((vcmmd_run_ops [.num 2 0, .num 3 67108864, .txt 4 "0-1"]).entries ≠ [] ∧
      ∀ e ∈ (vcmmd_run_ops [.num 2 0, .num 3 67108864,
        .txt 4 "0-1"]).entries, e.key < 65536) ∧
    vcmmd_get_ve_config_reply 0
        (append_config (vcmmd_run_ops [.num 2 0, .num 3 67108864,
          .txt 4 "0-1"])) =
      (0, vcmmd_run_ops [.num 2 0, .num 3 67108864, .txt 4 "0-1"]) :=
  ⟨⟨by decide, by decide⟩,
   C2_roundtrip [.num 2 0, .num 3 67108864, .txt 4 "0-1"]
     (by decide) (by decide)⟩

/-- Counterexample to C2 as stated: the empty config encodes to the empty
struct array, and decoding it fails with VCMMD_ERROR_CONNECTION_FAILED
instead of yielding the empty config back. -/
theorem C2_roundtrip_counterexample :
    append_config (vcmmd_run_ops []) = [] ∧
    vcmmd_get_ve_config_reply 0 (append_config (vcmmd_run_ops [])) =
      (VCMMD_ERROR_CONNECTION_FAILED, vcmmd_ve_config_init) ∧
    VCMMD_ERROR_CONNECTION_FAILED ≠ (0 : Int) := by
  refine ⟨by decide, by decide, by decide⟩

/-- C3 (amended): decoding a status-zero GetVEConfig reply does not skip
tuples with unknown tags: every unknown tag fails the string-kind test and is
routed to `vcmmd_ve_config_append`, so for a nonempty stream of distinct
unknown tags within capacity the decode succeeds and the config contains one
numeric entry per tuple, in stream order.  The original claim said unknown
tags are skipped and leave no entry; the code has no such check. -/
theorem C3_unknown_tags_appended (ts : List vcmmd_wire_tuple) (hne : ts ≠ [])
    (hnd : (ts.map vcmmd_wire_tuple.tag).Nodup)
    (hlen : ts.length ≤ __NR_VCMMD_VE_CONFIG_KEYS)
    (hunk : ∀ t ∈ ts, ¬ t.tag < __NR_VCMMD_VE_CONFIG_KEYS) :
    vcmmd_get_ve_config_reply 0 ts =
      (0, ⟨ts.map fun t => ⟨t.tag, t.value, some ""⟩⟩) := by
  rw [vcmmd_get_ve_config_reply_ok ts hne hnd hlen]
  have hmap : ts.map vcmmd_decoded_entry =
      ts.map fun t => (⟨t.tag, t.value, some ""⟩ : vcmmd_ve_config_entry) := by
    apply List.map_congr_left
    intro t ht
    have hbig := hunk t ht
    have hs : vcmmd_ve_config_entry_is_string t.tag = false := by
      unfold vcmmd_ve_config_entry_is_string
      simp only [VCMMD_VE_CONFIG_NODE_LIST, VCMMD_VE_CONFIG_CPU_LIST,
        __NR_VCMMD_VE_CONFIG_KEYS] at *
      simp only [Bool.or_eq_false_iff, beq_eq_false_iff_ne]
      omega
    unfold vcmmd_decoded_entry
    rw [if_neg (by simp [hs])]
  rw [hmap]

/-- Witness for C3 at the single-tuple stream with unknown tag 100. -/
theorem C3_unknown_tags_appended_witness :
    (([⟨100, 7, "z"⟩] : List vcmmd_wire_tuple) ≠ [] ∧
      (([⟨100, 7, "z"⟩] : List vcmmd_wire_tuple).map
        vcmmd_wire_tuple.tag).Nodup ∧
      ([⟨100, 7, "z"⟩] : List vcmmd_wire_tuple).length ≤
        __NR_VCMMD_VE_CONFIG_KEYS ∧
      ∀ t ∈ ([⟨100, 7, "z"⟩] : List vcmmd_wire_tuple),
        ¬ t.tag < __NR_VCMMD_VE_CONFIG_KEYS) ∧
    vcmmd_get_ve_config_reply 0 [⟨100, 7, "z"⟩] =
      (0, ⟨[⟨100, 7, some ""⟩]⟩) :=
  ⟨⟨by decide, by decide, by decide, by decide⟩,
   C3_unknown_tags_appended [⟨100, 7, "z"⟩]
     (by decide) (by decide) (by decide) (by decide)⟩

/-- Counterexample to C3 as stated: tag 100 is not an ontology key, yet
decoding a stream holding it succeeds with an entry for 100 in the resulting
config, rather than skipping it. -/
theorem C3_unknown_tags_counterexample :
    ¬ (100 : Nat) < __NR_VCMMD_VE_CONFIG_KEYS ∧
    (vcmmd_get_ve_config_reply 0 [⟨100, 7, "z"⟩]).1 = 0 ∧
    (vcmmd_get_ve_config_reply 0 [⟨100, 7, "z"⟩]).2.entries.map
      vcmmd_ve_config_entry.key = [100] := by
  refine ⟨by decide, by decide, by decide⟩

/-- C4: decoding a status-zero GetVEConfig reply whose struct array carries
two tuples with the same known tag fails the whole decode with
VCMMD_ERROR_CONNECTION_FAILED, and `vcmmd_ve_config_deinit` has released
every entry's string storage (all `str` fields are NULL) before the return,
so no usable partial config remains. -/
theorem C4_duplicate_tag_fails (ts : List vcmmd_wire_tuple)
    (i j : Fin ts.length) (hij : (i : Nat) < (j : Nat))
    (htag : (ts.get i).tag = (ts.get j).tag)
    (_hknown : (ts.get i).tag < __NR_VCMMD_VE_CONFIG_KEYS) :
    (vcmmd_get_ve_config_reply 0 ts).1 = VCMMD_ERROR_CONNECTION_FAILED ∧
    ∀ e ∈ (vcmmd_get_ve_config_reply 0 ts).2.entries, e.str = none := by
  have hfail : (vcmmd_decode_loop vcmmd_ve_config_init ts).1 = false := by
    rcases hr : (vcmmd_decode_loop vcmmd_ve_config_init ts) with ⟨ok, c⟩
    cases ok with
    | false => rfl
    | true =>
      exfalso
      have hnd := vcmmd_decode_loop_nodup ts vcmmd_ve_config_init c hr
        (by simp [vcmmd_ve_config_init])
      rw [show vcmmd_ve_config_init.entries.map vcmmd_ve_config_entry.key =
        [] from rfl, List.nil_append] at hnd
      have hi : ((ts.map vcmmd_wire_tuple.tag).get
          ⟨i, by rw [List.length_map]; exact i.2⟩) =
          ((ts.map vcmmd_wire_tuple.tag).get
          ⟨j, by rw [List.length_map]; exact j.2⟩) := by
        rw [List.get_eq_getElem, List.get_eq_getElem, List.getElem_map,
          List.getElem_map]
        exact htag
      have := (List.Nodup.get_inj_iff hnd).1 hi
      rw [Fin.mk.injEq] at this
      omega
  constructor
  · unfold vcmmd_get_ve_config_reply
    rw [if_neg (by simp), if_neg (by rw [hfail]; exact Bool.false_ne_true)]
  · intro e he
    unfold vcmmd_get_ve_config_reply at he
    rw [if_neg (by simp), if_neg (by rw [hfail]; exact Bool.false_ne_true)]
      at he
    unfold vcmmd_ve_config_deinit at he
    simp only [List.mem_map] at he
    obtain ⟨a, -, ha⟩ := he
    rw [← ha]

/-- Witness for C4 at a two-tuple stream both carrying the known tag
GUARANTEE. -/
theorem C4_duplicate_tag_fails_witness :
    ((0 : Nat) < 1 ∧
      (([⟨0, 1, "a"⟩, ⟨0, 2, "b"⟩] : List vcmmd_wire_tuple).get
        ⟨0, by decide⟩).tag =
      (([⟨0, 1, "a"⟩, ⟨0, 2, "b"⟩] : List vcmmd_wire_tuple).get
        ⟨1, by decide⟩).tag ∧
      (([⟨0, 1, "a"⟩, ⟨0, 2, "b"⟩] : List vcmmd_wire_tuple).get
        ⟨0, by decide⟩).tag < __NR_VCMMD_VE_CONFIG_KEYS) ∧
    (vcmmd_get_ve_config_reply 0 [⟨0, 1, "a"⟩, ⟨0, 2, "b"⟩]).1 =
      VCMMD_ERROR_CONNECTION_FAILED ∧
    ∀ e ∈ (vcmmd_get_ve_config_reply 0
      [⟨0, 1, "a"⟩, ⟨0, 2, "b"⟩]).2.entries, e.str = none :=
  ⟨⟨by decide, by decide, by decide⟩,
   C4_duplicate_tag_fails [⟨0, 1, "a"⟩, ⟨0, 2, "b"⟩]
     ⟨0, by decide⟩ ⟨1, by decide⟩ (by decide) (by decide) (by decide)⟩

/-- C5 is a code bug: on a GetVEConfig reply with the non-zero status
VCMMD_ERROR_VE_NOT_REGISTERED -- which include/vcmmd.h documents as a return
value of `vcmmd_get_ve_config` -- the code does not return that status: the
`if (err) goto error` path returns VCMMD_ERROR_CONNECTION_FAILED, so the
daemon's status is never surfaced verbatim (no config is produced, as
claimed). -/
theorem C5_nonzero_status_not_propagated :
    vcmmd_get_ve_config_reply VCMMD_ERROR_VE_NOT_REGISTERED [⟨0, 1, "a"⟩] =
      (VCMMD_ERROR_CONNECTION_FAILED, vcmmd_ve_config_init) ∧
    VCMMD_ERROR_CONNECTION_FAILED ≠ VCMMD_ERROR_VE_NOT_REGISTERED := by
  refine ⟨by decide, by decide⟩
